import Mathlib

/-!
Verification of the conversation-state and message-orchestration logic of a
chat relay bot (`bot/gpt_telegram_bot.py`): bounded per-user history, an
allow-list gate, a direct-or-mention routing filter, and the text / voice /
reset handlers. External services (chat transport, completion, transcription)
appear as oracle parameters; the process-wide `messages_list` dictionary is
threaded explicitly as an association list.
-/

set_option maxHeartbeats 1000000

namespace GptBot

/-- One conversation turn, `{"role": role, "content": content}`. -/
structure Turn where
  role : String
  content : String
deriving DecidableEq

/-- A per-identity conversation history (the value stored in `messages_list`). -/
abbrev History := List Turn

/-- The process-wide `messages_list` dictionary, as an association list from
username to history. -/
abbrev Table := List (String × History)

/-- `sum(len(msg["content"]) for msg in msg_list)`. -/
def totalLength (msgs : History) : Nat :=
  (msgs.map fun m => m.content.length).sum

/-- The trimming loop of `append_history`: `while total_length > 4096:
msg_list.pop(0)`, removing the oldest turns until the total content length is
at most 4096 characters. -/
def trimHistory : History → History
  | [] => []
  | m :: rest =>
    if totalLength (m :: rest) > 4096 then trimHistory rest else m :: rest

/-- Store `v` under key `k` (Python `messages_list[k] = v` / in-place mutation
of the stored list), replacing an existing binding or adding a new one. -/
def setKey : Table → String → History → Table
  | [], k, v => [(k, v)]
  | (k', v') :: rest, k, v =>
    if k' = k then (k, v) :: rest else (k', v') :: setKey rest k v

/-- `append_history(username, content, role)`: ensure the key exists, append
`{"role": role, "content": content}`, trim the oldest turns while the total
content length exceeds 4096, store and return the resulting list. -/
def append_history (table : Table) (username content role : String) :
    Table × History :=
  let msg_list := (table.lookup username).getD []
  let msg_list := msg_list ++ [{ role := role, content := content }]
  let msg_list := trimHistory msg_list
  (setKey table username msg_list, msg_list)

/-- `clear_history(username)`: `messages_list.get(username, []).clear()` —
empties the stored list in place when the key is present; when the key is
absent only a fresh temporary list is cleared, so the table is unchanged. -/
def clear_history (table : Table) (username : String) : Table :=
  match table.lookup username with
  | some _ => setKey table username []
  | none => table

/-- `is_allowed_user(username)`: true iff the configured allow-list is empty
or contains the username. -/
def is_allowed_user (allowed_usernames : List String) (username : String) :
    Bool :=
  allowed_usernames.length == 0 || allowed_usernames.contains username

/-- The fixed pool of fallback filler messages in `generate_gpt_response`. -/
def fallback_choices : List String :=
  [ "Oops, I must\x27ve tripped over my own code. Give me a moment to untangle myself! 🙃",
    "Error 404: Witty response not found. Stand by for reboot. 🚀",
    "Hold on, I think I\x27ve misplaced my 1s and 0s. Let me find them and get back to you! 🔍",
    "My circuits are overheating from all the awesomeness. Give me a second to cool down! ❄️",
    "Hold on, I\x27m buffering… just like the good ol\x27 days of dial-up internet. 🕰️",
    "I\x27ve got a case of digital hiccups! Bear with me while I sip some virtual water. 🥤",
    "I\x27d tell you a joke, but I think I just forgot the punchline. Hang on while I remember it. 😅",
    "I\x27m experiencing a minor glitch in the matrix. Let me reboot and we\x27ll be back to normal. 🔄",
    "Seems like I accidentally hit the snooze button on my internal clock. Let me wake up and get back to you! ⏰",
    "I\x27m currently lost in the cloud, but don\x27t worry, I\x27ll navigate my way back to you shortly! ☁️",
    "Hold tight, I\x27m just taking a quick coffee break to recharge my bytes. Be right back! ☕",
    "Apologies, I\x27m temporarily stuck in the emoji dimension. I\x27ll escape shortly! 😵‍💫",
    "I think I just blue-screened myself laughing. Let me reboot and I\x27ll be right with you. 🌀",
    "One moment please, I\x27m currently in a heated debate with my firewall. 🔥",
    "Hang on, I\x27m in the middle of a software update: \x27Installing Humor 2.0.\x27 Should be done soon! 📲" ]

/-- `generate_gpt_response(username)`: the remote completion call appears as an
oracle `completion` (`Except.ok` = the single candidate's textual content,
`Except.error` = any raised exception); `random.choice` appears as a random
index `r`. On success the candidate's content is returned; on any exception the
handler returns a pseudo-random member of `fallback_choices`. -/
def generate_gpt_response (completion : Except String String) (r : Nat) :
    String :=
  match completion with
  | Except.ok content => content
  | Except.error _ => fallback_choices.getD (r % fallback_choices.length) ""

/-- The fixed rejection message of `handle_allowed_usernames`. -/
def rejection_message : String := "Sorry, you are not allowed to use this bot"

/-- Confirmation message of `reset_history`. -/
def reset_message : String := "Messages history cleaned"

/-- Outcome of one run of a message handler: the resulting table, the texts of
the chat messages sent (in order), and whether the remote completion service
was invoked. -/
structure HandlerResult where
  table : Table
  sent : List String
  completionCalled : Bool
deriving DecidableEq

/-- `process_text_message(update, context)`: gate on the allow-list (sending
the rejection message and stopping when denied); otherwise send the thinking
message, synthesize the effective input (quoting the replied-to text when the
event is a reply), append it as a `"user"` turn, call the completion
orchestrator, append the response as an `"assistant"` turn and send it. -/
def process_text_message (allowed_usernames : List String) (table : Table)
    (username text : String) (reply_to : Option String)
    (completion : Except String String) (r : Nat) : HandlerResult :=
  if !is_allowed_user allowed_usernames username then
    { table := table, sent := [rejection_message], completionCalled := false }
  else
    let msg_text :=
      match reply_to with
      | some orig => "> " ++ orig ++ " \n\n" ++ text
      | none => text
    let res1 := append_history table username msg_text "user"
    let response := generate_gpt_response completion r
    let res2 := append_history res1.1 username response "assistant"
    { table := res2.1, sent := ["🤔", response], completionCalled := true }

/-- Outcome of one run of the voice handler; `propagated` holds the
transcription exception when one escaped the handler. -/
structure AudioResult where
  table : Table
  sent : List String
  completionCalled : Bool
  propagated : Option String
deriving DecidableEq

/-- `process_audio_message(update, context)`: gate on the allow-list; then
`get_audio_transcription` (an oracle `transcription`; `Except.error` = a
raised exception, which has no local handler and escapes before any history
mutation); then append the transcript as a `"user"` turn, call the completion
orchestrator, append and send the response. -/
def process_audio_message (allowed_usernames : List String) (table : Table)
    (username : String) (transcription : Except String String)
    (completion : Except String String) (r : Nat) : AudioResult :=
  if !is_allowed_user allowed_usernames username then
    { table := table, sent := [rejection_message], completionCalled := false,
      propagated := none }
  else
    match transcription with
    | Except.error e =>
      { table := table, sent := [], completionCalled := false,
        propagated := some e }
    | Except.ok transcript =>
      let res1 := append_history table username transcript "user"
      let response := generate_gpt_response completion r
      let res2 := append_history res1.1 username response "assistant"
      { table := res2.1, sent := [response], completionCalled := true,
        propagated := none }

/-- `reset_history(update, context)`: gate on the allow-list; then clear the
caller's history and send the confirmation message. -/
def reset_history (allowed_usernames : List String) (table : Table)
    (username : String) : Table × List String :=
  if !is_allowed_user allowed_usernames username then
    (table, [rejection_message])
  else
    (clear_history table username, [reset_message])

/-- The replied-to message visible on an inbound event
(`update.message.reply_to_message`): its author's username (absent when
`from_user` is falsy or has no username) and its text. -/
structure ReplyMsg where
  from_username : Option String
  text : String
deriving DecidableEq

/-- An inbound message (`update.message`): its text (`none` models a falsy
`text`, i.e. absent; the empty string is falsy too and is checked separately)
and its optional replied-to message. -/
structure Msg where
  text : Option String
  reply_to_message : Option ReplyMsg
deriving DecidableEq

/-- An inbound event (`update`): optional message and the chat type
discriminator (`update.effective_chat.type`). -/
structure UpdateEv where
  message : Option Msg
  chat_type : String
deriving DecidableEq

/-- Python's substring test `needle in hay`, on the character lists of the two
strings. -/
def containsSub (needle : List Char) : List Char → Bool
  | [] => needle.isEmpty
  | c :: rest => needle.isPrefixOf (c :: rest) || containsSub needle rest

/-- `DirectOrMentionInGroup.filter(update)`: false when the event has no
message or falsy text; otherwise true iff the chat is not a group/supergroup,
or the text contains `"@" + bot_username`, or the event replies to a message
authored by the bot. The lazily memoized `self.username` appears as the
parameter `bot_username`. -/
def direct_or_mention_filter (bot_username : String) (update : UpdateEv) :
    Bool :=
  match update.message with
  | none => false
  | some m =>
    match m.text with
    | none => false
    | some t =>
      if t = "" then false
      else
        let is_group_chat :=
          update.chat_type == "group" || update.chat_type == "supergroup"
        let mentioned := containsSub ("@" ++ bot_username).toList t.toList
        let is_reply_to_bot :=
          match m.reply_to_message with
          | some reply =>
            match reply.from_username with
            | some u => u == bot_username
            | none => false
          | none => false
        !is_group_chat || mentioned || is_reply_to_bot

/-- Run a sequence of `append_history` calls for one identity, collecting the
history returned by each append. -/
def runAppends (table : Table) (username : String) :
    List (String × String) → List History
  | [] => []
  | (content, role) :: ops =>
    let res := append_history table username content role
    res.2 :: runAppends res.1 username ops

end GptBot

namespace GptBot

theorem totalLength_nil : totalLength [] = 0 := rfl

theorem totalLength_trimHistory_le (l : History) :
    totalLength (trimHistory l) ≤ 4096 := by
  induction l with
  | nil => simp [trimHistory, totalLength]
  | cons m rest ih =>
    simp only [trimHistory]
    split
    · exact ih
    · omega

theorem trimHistory_suffix (l : History) : trimHistory l <:+ l := by
  induction l with
  | nil => simp [trimHistory]
  | cons m rest ih =>
    simp only [trimHistory]
    split
    · exact ih.trans (List.suffix_cons m rest)
    · exact List.suffix_refl _

theorem trimHistory_maximal (l : History) :
    ∀ s, s <:+ l → totalLength s ≤ 4096 →
      s.length ≤ (trimHistory l).length := by
  induction l with
  | nil =>
    intro s hs _
    rw [List.suffix_nil.mp hs]
    exact Nat.le_refl _
  | cons m rest ih =>
    intro s hs hlen
    simp only [trimHistory]
    split
    · next hgt =>
      rcases List.suffix_cons_iff.mp hs with h1 | h1
      · exfalso
        rw [h1] at hlen
        omega
      · exact ih s h1 hlen
    · exact hs.length_le

theorem trimHistory_of_le (l : History) (h : totalLength l ≤ 4096) :
    trimHistory l = l := by
  cases l with
  | nil => rfl
  | cons m rest =>
    simp only [trimHistory]
    rw [if_neg (by omega)]

theorem lookup_setKey_self (t : Table) (k : String) (v : History) :
    (setKey t k v).lookup k = some v := by
  induction t with
  | nil => simp [setKey, List.lookup_cons]
  | cons p rest ih =>
    obtain ⟨k', v'⟩ := p
    simp only [setKey]
    split
    · simp [List.lookup_cons]
    · next h =>
      rw [List.lookup_cons]
      have : (k == k') = false := by
        simp
        exact fun he => h he.symm
      rw [this]
      exact ih

theorem lookup_setKey_ne (t : Table) (k k' : String) (v : History)
    (h : k ≠ k') : (setKey t k v).lookup k' = t.lookup k' := by
  induction t with
  | nil =>
    simp only [setKey, List.lookup_cons, List.lookup_nil]
    have : (k' == k) = false := by
      simp
      exact fun he => h he.symm
    rw [this]
  | cons p rest ih =>
    obtain ⟨k₀, v₀⟩ := p
    simp only [setKey]
    split
    · next he =>
      subst he
      rw [List.lookup_cons, List.lookup_cons]
      have : (k' == k₀) = false := by
        simp
        exact fun hx => h hx.symm
      rw [this]
    · next he =>
      rw [List.lookup_cons, List.lookup_cons]
      cases hx : (k' == k₀) with
      | true => rfl
      | false => exact ih

theorem totalLength_cons (m : Turn) (l : History) :
    totalLength (m :: l) = m.content.length + totalLength l := by
  simp [totalLength]

theorem totalLength_append (l₁ l₂ : History) :
    totalLength (l₁ ++ l₂) = totalLength l₁ + totalLength l₂ := by
  simp [totalLength]

theorem trimHistory_concat_of_big (l : History) (a : Turn)
    (h : 4096 < a.content.length) : trimHistory (l ++ [a]) = [] := by
  induction l with
  | nil =>
    have hgt : totalLength [a] > 4096 := by
      simp only [totalLength, List.map_cons, List.map_nil, List.sum_cons,
        List.sum_nil]
      omega
    simp [trimHistory, hgt]
  | cons m rest ih =>
    have hgt : totalLength (m :: (rest ++ [a])) > 4096 := by
      simp only [totalLength, List.append_eq, List.map_cons, List.map_append,
        List.map_nil, List.sum_cons, List.sum_append, List.sum_nil]
      omega
    simp only [List.cons_append, trimHistory, List.append_eq]
    rw [if_pos hgt]
    exact ih

theorem containsSub_iff (needle hay : List Char) :
    containsSub needle hay = true ↔ needle <:+: hay := by
  induction hay with
  | nil => simp [containsSub]
  | cons c rest ih =>
    simp [containsSub, ih, List.infix_cons_iff]

theorem allowed_iff (allowed : List String) (username : String) :
    is_allowed_user allowed username = true ↔
      allowed = [] ∨ username ∈ allowed := by
  simp [is_allowed_user, List.length_eq_zero, List.contains_eq_any_beq,
    List.any_eq_true]

theorem is_allowed_user_eq_false (allowed : List String) (username : String)
    (hne : allowed ≠ []) (hmem : username ∉ allowed) :
    is_allowed_user allowed username = false := by
  cases hb : is_allowed_user allowed username with
  | false => rfl
  | true =>
    rcases (allowed_iff allowed username).mp hb with h | h
    · exact absurd h hne
    · exact absurd h hmem

theorem append_history_lookup (table : Table) (username content role : String) :
    (append_history table username content role).1.lookup username =
      some (trimHistory ((table.lookup username).getD [] ++
        [{ role := role, content := content }])) :=
  lookup_setKey_self _ _ _

/-- C1: for every identity and every sequence of `append_history` operations on
that identity's history, after each append the total content length of the
turns in the stored history is at most 4096 characters. -/
theorem append_history_invariant (table : Table) (username : String)
    (ops : List (String × String)) :
    ∀ h ∈ runAppends table username ops, totalLength h ≤ 4096 := by
  induction ops generalizing table with
  | nil =>
    intro h hh
    simp [runAppends] at hh
  | cons op ops ih =>
    obtain ⟨content, role⟩ := op
    intro h hh
    simp only [runAppends, List.mem_cons] at hh
    rcases hh with rfl | hh
    · exact totalLength_trimHistory_le _
    · exact ih _ h hh

/-- Witness for C1 at a concrete table, identity and append sequence. -/
theorem append_history_invariant_witness :
    totalLength (append_history [] "alice" "hi" "user").2 ≤ 4096 :=
  append_history_invariant [] "alice" [("hi", "user")]
    (append_history [] "alice" "hi" "user").2 (by decide)

/-- C2: `append_history` returns and stores exactly the longest suffix of the
previous history extended with the new turn whose total content length is at
most 4096: the result is such a suffix, no longer qualifying suffix exists,
it is what the table now holds for the identity, and a single turn longer
than 4096 characters is itself evicted, leaving the history empty. -/
theorem append_history_longest_suffix (table : Table)
    (username content role : String) :
    (append_history table username content role).2 <:+
        ((table.lookup username).getD [] ++
          [{ role := role, content := content }]) ∧
    totalLength (append_history table username content role).2 ≤ 4096 ∧
    (∀ s, s <:+ ((table.lookup username).getD [] ++
            [{ role := role, content := content }]) →
        totalLength s ≤ 4096 →
        s.length ≤ (append_history table username content role).2.length) ∧
    (append_history table username content role).1.lookup username =
      some (append_history table username content role).2 ∧
    (4096 < content.length →
      (append_history table username content role).2 = []) :=
  ⟨trimHistory_suffix _, totalLength_trimHistory_le _, trimHistory_maximal _,
    lookup_setKey_self _ _ _, fun h => trimHistory_concat_of_big _ _ h⟩

/-- Witness for C2: the maximality conjunct applied at a concrete input. -/
theorem append_history_longest_suffix_witness :
    [({ role := "user", content := "hello" } : Turn)].length ≤
      (append_history [] "u" "hello" "user").2.length :=
  (append_history_longest_suffix [] "u" "hello" "user").2.2.1
    [{ role := "user", content := "hello" }] (by decide) (by decide)

/-- C3: `is_allowed_user` returns true iff the allow-list is empty or the
identity is listed. -/
theorem is_allowed_user_spec (allowed : List String) (username : String) :
    is_allowed_user allowed username = true ↔
      allowed = [] ∨ username ∈ allowed :=
  allowed_iff allowed username

/-- Witness for C3 at a concrete empty allow-list. -/
theorem is_allowed_user_spec_witness : is_allowed_user [] "anyone" = true :=
  (is_allowed_user_spec [] "anyone").mpr (Or.inl rfl)

/-- C5: `generate_gpt_response` returns the candidate's content on success;
on any raised error it returns, without propagating the error, a non-empty
member of the fixed fallback pool. -/
theorem generate_gpt_response_spec (completion : Except String String)
    (r : Nat) :
    (∀ content, completion = Except.ok content →
      generate_gpt_response completion r = content) ∧
    (∀ e, completion = Except.error e →
      generate_gpt_response completion r ∈ fallback_choices ∧
      generate_gpt_response completion r ≠ "") := by
  constructor
  · rintro content rfl
    rfl
  · rintro e rfl
    have hlt : r % fallback_choices.length < fallback_choices.length :=
      Nat.mod_lt _ (by decide)
    have hmem : fallback_choices.getD (r % fallback_choices.length) "" ∈
        fallback_choices := by
      rw [List.getD_eq_getElem _ _ hlt]
      exact List.getElem_mem _
    have hall : ∀ s ∈ fallback_choices, s ≠ "" := by decide
    exact ⟨hmem, hall _ hmem⟩

/-- Witness for C5 at a concrete error and random index. -/
theorem generate_gpt_response_spec_witness :
    generate_gpt_response (Except.error "boom") 3 ∈ fallback_choices ∧
    generate_gpt_response (Except.error "boom") 3 ≠ "" :=
  (generate_gpt_response_spec (Except.error "boom") 3).2 "boom" rfl

/-- C6: an identity denied by a non-empty allow-list gets the fixed rejection
message from each handler, with no history mutation and no completion call. -/
theorem denied_user_frame (allowed : List String) (table : Table)
    (username text : String) (reply_to : Option String)
    (transcription completion : Except String String) (r : Nat)
    (hne : allowed ≠ []) (hmem : username ∉ allowed) :
    process_text_message allowed table username text reply_to completion r =
      { table := table, sent := [rejection_message],
        completionCalled := false } ∧
    process_audio_message allowed table username transcription completion r =
      { table := table, sent := [rejection_message], completionCalled := false,
        propagated := none } ∧
    reset_history allowed table username = (table, [rejection_message]) := by
  have hfalse := is_allowed_user_eq_false allowed username hne hmem
  refine ⟨?_, ?_, ?_⟩ <;>
    simp [process_text_message, process_audio_message, reset_history, hfalse]

/-- Witness for C6 at a concrete unlisted identity. -/
theorem denied_user_frame_witness :
    process_text_message ["alice"] [] "eve" "hi" none (Except.ok "t") 0 =
      { table := [], sent := [rejection_message],
        completionCalled := false } ∧
    process_audio_message ["alice"] [] "eve" (Except.ok "v") (Except.ok "t")
        0 =
      { table := [], sent := [rejection_message], completionCalled := false,
        propagated := none } ∧
    reset_history ["alice"] [] "eve" = ([], [rejection_message]) :=
  denied_user_frame ["alice"] [] "eve" "hi" none (Except.ok "v")
    (Except.ok "t") 0 (by decide) (by decide)

/-- C7: `clear_history` empties a present identity's history in place, the
identity stays a key (a subsequent append starts from the fresh empty
history), and for an absent identity the table is unchanged. -/
theorem clear_history_spec (table : Table) (username : String) :
    (∀ h, table.lookup username = some h →
      (clear_history table username).lookup username = some [] ∧
      ∀ content role,
        (append_history (clear_history table username) username content
            role).2 =
          trimHistory [{ role := role, content := content }]) ∧
    (table.lookup username = none → clear_history table username = table) := by
  constructor
  · intro h hh
    have hcl : clear_history table username = setKey table username [] := by
      unfold clear_history
      rw [hh]
    constructor
    · rw [hcl]
      exact lookup_setKey_self _ _ _
    · intro content role
      rw [hcl]
      show trimHistory (((setKey table username []).lookup username).getD [] ++
        [{ role := role, content := content }]) = _
      rw [lookup_setKey_self]
      rfl
  · intro hh
    unfold clear_history
    rw [hh]

/-- Witness for C7 at a concrete one-entry table. -/
theorem clear_history_spec_witness :
    (clear_history [("alice", [{ role := "user", content := "hi" }])]
        "alice").lookup "alice" = some [] :=
  ((clear_history_spec [("alice", [{ role := "user", content := "hi" }])]
      "alice").1 [{ role := "user", content := "hi" }] (by decide)).1

/-- C9: a transcription error propagates out of the voice handler and aborts
it: no turn is appended, no completion call is made, nothing is sent. -/
theorem audio_transcription_error_propagates (allowed : List String)
    (table : Table) (username e : String) (completion : Except String String)
    (r : Nat) (hallow : is_allowed_user allowed username = true) :
    process_audio_message allowed table username (Except.error e) completion
        r =
      { table := table, sent := [], completionCalled := false,
        propagated := some e } := by
  simp [process_audio_message, hallow]

/-- Witness for C9 at a concrete failing transcription. -/
theorem audio_transcription_error_propagates_witness :
    process_audio_message [] [] "alice" (Except.error "net down")
        (Except.ok "x") 0 =
      { table := [], sent := [], completionCalled := false,
        propagated := some "net down" } :=
  audio_transcription_error_propagates [] [] "alice" "net down"
    (Except.ok "x") 0 (by decide)

/-- C10: appends and clears for one identity leave any other identity's table
entry (presence and content) unchanged. -/
theorem other_identity_unchanged (table : Table) (u v content role : String)
    (huv : u ≠ v) :
    (append_history table u content role).1.lookup v = table.lookup v ∧
    (clear_history table u).lookup v = table.lookup v := by
  constructor
  · exact lookup_setKey_ne table u v _ huv
  · cases hl : table.lookup u with
    | some h =>
      unfold clear_history
      rw [hl]
      exact lookup_setKey_ne table u v _ huv
    | none =>
      unfold clear_history
      rw [hl]

theorem process_text_message_allowed (allowed : List String) (table : Table)
    (username text : String) (reply_to : Option String)
    (completion : Except String String) (r : Nat)
    (hallow : is_allowed_user allowed username = true) :
    process_text_message allowed table username text reply_to completion r =
      { table := (append_history (append_history table username
            (match reply_to with
             | some orig => "> " ++ orig ++ " \n\n" ++ text
             | none => text) "user").1 username
            (generate_gpt_response completion r) "assistant").1,
        sent := ["🤔", generate_gpt_response completion r],
        completionCalled := true } := by
  simp [process_text_message, hallow]

/-- C8: for a text event that replies to another event, the handler appends as
the user turn the quoted original prefixed with the quotation marker and the
new text on a new paragraph; for a non-reply it appends the raw text. -/
theorem text_handler_reply_quoting (allowed : List String) (table : Table)
    (username text orig : String) (completion : Except String String)
    (r : Nat) (hallow : is_allowed_user allowed username = true) :
    ((process_text_message allowed table username text (some orig) completion
          r).table.lookup username =
      some (trimHistory
        (trimHistory ((table.lookup username).getD [] ++
            [{ role := "user",
               content := "> " ++ orig ++ " \n\n" ++ text }]) ++
          [{ role := "assistant",
             content := generate_gpt_response completion r }]))) ∧
    ((process_text_message allowed table username text none completion
          r).table.lookup username =
      some (trimHistory
        (trimHistory ((table.lookup username).getD [] ++
            [{ role := "user", content := text }]) ++
          [{ role := "assistant",
             content := generate_gpt_response completion r }]))) := by
  have key : ∀ msg_text : String,
      (append_history (append_history table username msg_text "user").1
          username (generate_gpt_response completion r) "assistant").1.lookup
          username =
        some (trimHistory
          (trimHistory ((table.lookup username).getD [] ++
              [{ role := "user", content := msg_text }]) ++
            [{ role := "assistant",
               content := generate_gpt_response completion r }])) := by
    intro msg_text
    rw [append_history_lookup, append_history_lookup, Option.getD_some]
  constructor
  · rw [process_text_message_allowed allowed table username text (some orig)
      completion r hallow]
    exact key ("> " ++ orig ++ " \n\n" ++ text)
  · rw [process_text_message_allowed allowed table username text none
      completion r hallow]
    exact key text

/-- Witness for C8 at a concrete reply event under an empty allow-list. -/
theorem text_handler_reply_quoting_witness :
    ((process_text_message [] [] "alice" "and you?" (some "hi there")
          (Except.ok "fine") 0).table.lookup "alice" =
      some (trimHistory
        (trimHistory ((List.lookup "alice" ([] : Table)).getD [] ++
            [{ role := "user",
               content := "> " ++ "hi there" ++ " \n\n" ++ "and you?" }]) ++
          [{ role := "assistant",
             content := generate_gpt_response (Except.ok "fine") 0 }]))) ∧
    ((process_text_message [] [] "alice" "and you?" none
          (Except.ok "fine") 0).table.lookup "alice" =
      some (trimHistory
        (trimHistory ((List.lookup "alice" ([] : Table)).getD [] ++
            [{ role := "user", content := "and you?" }]) ++
          [{ role := "assistant",
             content := generate_gpt_response (Except.ok "fine") 0 }]))) :=
  text_handler_reply_quoting [] [] "alice" "and you?" "hi there"
    (Except.ok "fine") 0 (by decide)

/-- C4: the routing filter returns false for an event with no textual
content; otherwise it routes iff the chat is not a group context, or the text
contains the bot mention substring, or the event replies to a message
authored by the bot. -/
theorem direct_or_mention_filter_spec (bot_username : String) (u : UpdateEv) :
    ((u.message = none ∨
        ∃ m, u.message = some m ∧ (m.text = none ∨ m.text = some "")) →
      direct_or_mention_filter bot_username u = false) ∧
    (∀ m t, u.message = some m → m.text = some t → t ≠ "" →
      (direct_or_mention_filter bot_username u = true ↔
        (¬(u.chat_type = "group" ∨ u.chat_type = "supergroup") ∨
          ("@" ++ bot_username).toList <:+: t.toList ∨
          ∃ reply, m.reply_to_message = some reply ∧
            reply.from_username = some bot_username))) := by
  constructor
  · rintro (hnone | ⟨m, hm, hnone | hempty⟩)
    · simp [direct_or_mention_filter, hnone]
    · simp [direct_or_mention_filter, hm, hnone]
    · simp [direct_or_mention_filter, hm, hempty]
  · intro m t hm ht hne
    obtain ⟨mtext, mreply⟩ := m
    simp only at ht
    subst ht
    simp only [direct_or_mention_filter, hm]
    rw [if_neg hne]
    rcases mreply with _ | ⟨rfrom, rtext⟩
    · simp [containsSub_iff]
    · rcases rfrom with _ | ru
      · simp [containsSub_iff]
      · simp [containsSub_iff, or_assoc]

/-- Witness for C4: a group-chat message mentioning the bot. -/
theorem direct_or_mention_filter_spec_witness :
    direct_or_mention_filter "bot"
        ⟨some ⟨some "hello @bot", none⟩, "group"⟩ = true ↔
      (¬("group" = "group" ∨ "group" = "supergroup") ∨
        ("@" ++ "bot").toList <:+: "hello @bot".toList ∨
        ∃ reply, (none : Option ReplyMsg) = some reply ∧
          reply.from_username = some "bot") :=
  (direct_or_mention_filter_spec "bot"
      ⟨some ⟨some "hello @bot", none⟩, "group"⟩).2
    ⟨some "hello @bot", none⟩ "hello @bot" rfl rfl (by decide)

/-- Witness for C10 at two concrete distinct identities. -/
theorem other_identity_unchanged_witness :
    (append_history [("bob", [])] "alice" "x" "user").1.lookup "bob" =
        List.lookup "bob" [("bob", [])] ∧
    (clear_history [("bob", [])] "alice").lookup "bob" =
        List.lookup "bob" [("bob", [])] :=
  other_identity_unchanged [("bob", [])] "alice" "bob" "x" "user" (by decide)

end GptBot
